import Mathlib

/-!
Verification of `google/cloud/storage/_opentelemetry_tracing.py`.

The module wraps storage-client calls in OpenTelemetry spans.  We embed its
data model and operations shallowly:

* Python dicts become association lists (`DictVal`) with insertion-order
  semantics: `dictSet` overwrites an existing key in place and appends a new
  key at the end, `dictUpdate` folds `dictSet` over the second dict, mirroring
  `dict.update`.
* Python attribute values become `PyVal` (`none` models Python `None`).
* `os.environ.get(VAR, False)` yields either the bool `False` or the raw
  string; `EnvValue` models that value, `pyTruthy` models Python truthiness.
* `create_span` is a `@contextmanager`; we embed it as a higher-order
  function taking the wrapped body (a function of the yielded span handle)
  and returning the outcome, the yielded handle, the final span record and
  an event trace (span open/close, body execution, status and exception
  recording, debug prints).
* dict mutation (for the frame claims) is modelled by a small heap of dict
  cells (`Heap`), with `_get_final_attributesH` / `create_spanH` the
  heap-passing versions: `dict.copy()` allocates a fresh cell and
  `dict.update` mutates only the copied cell.
-/

/-- Values storable in a Python attribute dict: `None`, strings, ints. -/
inductive PyVal where
  | none
  | str (s : String)
  | int (n : Int)
deriving DecidableEq, Repr

/-- A Python dict as an insertion-ordered association list. -/
abbrev DictVal := List (String × PyVal)

/-- Assignment `d[k] = v`: overwrite in place if `k` present, else append. -/
def dictSet : DictVal → String → PyVal → DictVal
  | [], k, v => [(k, v)]
  | (k', v') :: rest, k, v =>
      if k' = k then (k', v) :: rest else (k', v') :: dictSet rest k v

/-- Python `d.update(src)`: assign every pair of `src` into `d` in order. -/
def dictUpdate (d src : DictVal) : DictVal :=
  src.foldl (fun acc kv => dictSet acc kv.1 kv.2) d

/-- Lookup `d[k]` as an option. -/
def dictGet (d : DictVal) (k : String) : Option PyVal :=
  (d.find? (fun kv => kv.1 = k)).map (fun kv => kv.2)

/-- Python `k in d`. -/
def hasKey (d : DictVal) (k : String) : Bool :=
  d.any (fun kv => kv.1 = k)

/-- The comprehension `{k: v for k, v in d.items() if v is not None}`. -/
def filterNone (d : DictVal) : DictVal :=
  d.filter (fun kv => decide (kv.2 ≠ PyVal.none))

/-- Value of `os.environ.get(DISABLE_OTEL_TRACES_ENV_VAR, False)`: the bool
default `False` when the variable is unset, else the raw string. -/
inductive EnvValue where
  | pyFalse
  | pyStr (s : String)
deriving DecidableEq, Repr

/-- Module-level `disable_otel_traces`, as a function of the environment. -/
def disable_otel_traces (env : Option String) : EnvValue :=
  match env with
  | some s => EnvValue.pyStr s
  | none => EnvValue.pyFalse

/-- Python truthiness of the flag value: `False` is falsy, a string is truthy
iff non-empty. -/
def pyTruthy : EnvValue → Bool
  | EnvValue.pyFalse => false
  | EnvValue.pyStr s => !s.isEmpty

/-- Module-level `_default_attributes`, parameterised by the package
`__version__` string interpolated into `user_agent.original`. -/
def _default_attributes (version : String) : DictVal :=
  [("rpc.service", PyVal.str "CloudStorage"),
   ("rpc.system", PyVal.str "http"),
   ("user_agent.original", PyVal.str ("gcloud-python/" ++ version)),
   ("curr.stat", PyVal.str "prototyping")]

/-- The storage client handle, restricted to the fields the tracing module
reads: `_connection.API_BASE_URL`, `_connection._client_info.user_agent`,
and `project` (absent when the client has no project). -/
structure Client where
  api_base_url : String
  user_agent : String
  project : Option String
deriving DecidableEq, Repr

/-- Embedding of `_set_client_attributes(client)`. -/
def _set_client_attributes (client : Client) : DictVal :=
  let attr : DictVal :=
    [("url", PyVal.str client.api_base_url),
     ("user_agent.original", PyVal.str client.user_agent)]
  match client.project with
  | some p => dictSet attr "project" (PyVal.str p)
  | none => attr

/-- Embedding of `_get_final_attributes(attributes, client)`.  `none` models
passing `None`; `if attributes:` treats an empty dict as falsy. -/
def _get_final_attributes (version : String) (attributes : Option DictVal)
    (client : Option Client) : DictVal :=
  let collected := _default_attributes version
  let collected :=
    match client with
    | some c => dictUpdate collected (_set_client_attributes c)
    | none => collected
  let collected :=
    match attributes with
    | some a => if a.isEmpty then collected else dictUpdate collected a
    | none => collected
  filterNone collected

/-- The spec's merge: defaults overlaid by client-derived attributes overlaid
by caller-supplied attributes, with absent-valued keys removed. -/
def mergeFinal (a b c : DictVal) : DictVal :=
  filterNone (dictUpdate (dictUpdate a b) c)

/-- Client-derived attribute dict of an optional client argument. -/
def clientPart : Option Client → DictVal
  | some c => _set_client_attributes c
  | none => []

/-- Exceptions that can cross `create_span`: a `GoogleAPICallError` or any
other kind; the tag tracks object identity across re-raising. -/
inductive Exc where
  | googleAPICallError (tag : Nat)
  | otherError (tag : Nat)
deriving DecidableEq, Repr

/-- The `except GoogleAPICallError` pattern match. -/
def isGoogleAPICallError : Exc → Bool
  | Exc.googleAPICallError _ => true
  | Exc.otherError _ => false

/-- Outcome of the wrapped body (the caller's `with` block): a return value
or a raised exception. -/
inductive Outcome (α : Type) where
  | ok (val : α)
  | raised (e : Exc)
deriving DecidableEq, Repr

/-- Span status: `Status()` default (unset) or `StatusCode.ERROR`. -/
inductive SpanStatus where
  | unset
  | error
deriving DecidableEq, Repr

/-- Span kind; `create_span` only uses `SpanKind.CLIENT`. -/
inductive SpanKind where
  | client
deriving DecidableEq, Repr

/-- The span as closed: name, kind, attributes at creation, final status and
the exceptions recorded on it. -/
structure SpanRecord where
  name : String
  kind : SpanKind
  attributes : DictVal
  status : SpanStatus
  recorded : List Exc
deriving DecidableEq, Repr

/-- Observable steps of one `create_span` invocation, in order. -/
inductive Event where
  | debugPrint
  | spanOpen (name : String) (kind : SpanKind) (attrs : DictVal)
  | bodyRun
  | setStatus (s : SpanStatus)
  | recordException (e : Exc)
  | spanClose
deriving DecidableEq, Repr

/-- Result of running `with create_span(...) as span: body`. -/
structure RunResult (α : Type) where
  outcome : Outcome α
  yielded : Option Unit
  span : Option SpanRecord
  events : List Event
deriving Repr

/-- The enabled path of `create_span`: open a CLIENT-kind span with the final
attributes, run the body inside the scope, on `GoogleAPICallError` set error
status and record the exception then re-raise, close the span on every exit. -/
def spanScope {α : Type} (name : String) (final_attributes : DictVal)
    (body : Option Unit → Outcome α) : RunResult α :=
  match body (some ()) with
  | Outcome.ok v =>
      { outcome := Outcome.ok v
        yielded := some ()
        span := some ⟨name, SpanKind.client, final_attributes, SpanStatus.unset, []⟩
        events := [Event.spanOpen name SpanKind.client final_attributes,
                   Event.bodyRun, Event.spanClose] }
  | Outcome.raised e =>
      if isGoogleAPICallError e then
        { outcome := Outcome.raised e
          yielded := some ()
          span := some ⟨name, SpanKind.client, final_attributes, SpanStatus.error, [e]⟩
          events := [Event.spanOpen name SpanKind.client final_attributes,
                     Event.bodyRun, Event.setStatus SpanStatus.error,
                     Event.recordException e, Event.spanClose] }
      else
        { outcome := Outcome.raised e
          yielded := some ()
          span := some ⟨name, SpanKind.client, final_attributes, SpanStatus.unset, []⟩
          events := [Event.spanOpen name SpanKind.client final_attributes,
                     Event.bodyRun, Event.spanClose] }

/-- Embedding of `create_span(name, attributes, client, **kwargs)` driving the
wrapped body `body`.  When OpenTelemetry is missing or the disable flag is
truthy it prints two debug lines, yields `None` and returns; otherwise it
resolves the tracer, computes the final attributes and runs `spanScope`. -/
def create_span {α : Type} (hasOpentelemetry : Bool) (disableFlag : EnvValue)
    (version : String) (name : String) (attributes : Option DictVal)
    (client : Option Client) (kwargs : DictVal)
    (body : Option Unit → Outcome α) : RunResult α :=
  if !hasOpentelemetry || pyTruthy disableFlag then
    { outcome := body none
      yielded := none
      span := none
      events := [Event.debugPrint, Event.debugPrint, Event.bodyRun] }
  else
    spanScope name (_get_final_attributes version attributes client) body

/-- Heap reference to a dict cell. -/
abbrev Ref := Nat

/-- A heap of Python dict objects, indexed by allocation order. -/
structure Heap where
  cells : List DictVal
deriving Repr

/-- Read the dict at `r`. -/
def Heap.get (h : Heap) (r : Ref) : DictVal :=
  h.cells.getD r []

/-- Overwrite the dict at `r` (in-place mutation of one object). -/
def Heap.set (h : Heap) (r : Ref) (d : DictVal) : Heap :=
  ⟨h.cells.set r d⟩

/-- Allocate a fresh dict object holding `d`; returns the new heap and ref. -/
def Heap.alloc (h : Heap) (d : DictVal) : Heap × Ref :=
  (⟨h.cells ++ [d]⟩, h.cells.length)

/-- Heap-passing embedding of `_get_final_attributes`: `_default_attributes`
lives in the cell `defaultsRef` and the caller's `attributes` dict in the cell
`aref`; `.copy()` allocates a fresh cell and both `update` calls mutate only
that copy; the comprehension builds a fresh value. -/
def _get_final_attributesH (h : Heap) (defaultsRef : Ref)
    (attributes : Option Ref) (client : Option Client) : Heap × DictVal :=
  let alloc := h.alloc (h.get defaultsRef)
  let h1 := alloc.1
  let collected := alloc.2
  let h2 :=
    match client with
    | some c => h1.set collected (dictUpdate (h1.get collected) (_set_client_attributes c))
    | none => h1
  let h3 :=
    match attributes with
    | some aref =>
        if (h2.get aref).isEmpty then h2
        else h2.set collected (dictUpdate (h2.get collected) (h2.get aref))
    | none => h2
  (h3, filterNone (h3.get collected))

/-- Heap-passing embedding of `create_span`: identical control flow, with the
final attributes computed by `_get_final_attributesH`. -/
def create_spanH {α : Type} (hasOpentelemetry : Bool) (disableFlag : EnvValue)
    (h : Heap) (defaultsRef : Ref) (name : String) (attributes : Option Ref)
    (client : Option Client) (kwargs : DictVal)
    (body : Option Unit → Outcome α) : Heap × RunResult α :=
  if !hasOpentelemetry || pyTruthy disableFlag then
    (h, { outcome := body none
          yielded := none
          span := none
          events := [Event.debugPrint, Event.debugPrint, Event.bodyRun] })
  else
    let p := _get_final_attributesH h defaultsRef attributes client
    (p.1, spanScope name p.2 body)

theorem Heap.get_alloc_lt (h : Heap) (d : DictVal) (r : Ref)
    (hr : r < h.cells.length) : (h.alloc d).1.get r = h.get r :=
  List.getD_append h.cells [d] [] r hr

theorem Heap.get_set_ne (h : Heap) (r r' : Ref) (d : DictVal) (hne : r' ≠ r) :
    (h.set r' d).get r = h.get r := by
  simp [Heap.get, Heap.set, List.getD_eq_getElem?_getD, List.getElem?_set_ne hne]

theorem Heap.length_set (h : Heap) (r : Ref) (d : DictVal) :
    (h.set r d).cells.length = h.cells.length :=
  List.length_set h.cells r d

theorem Heap.length_alloc (h : Heap) (d : DictVal) :
    (h.alloc d).1.cells.length = h.cells.length + 1 := by
  simp [Heap.alloc]

/-- Frame property of the heap-passing attribute merge: every dict cell that
existed before the call is untouched (only the fresh copy is mutated), and
the heap only grows. -/
theorem _get_final_attributesH_frame (h : Heap) (dref : Ref)
    (attributes : Option Ref) (client : Option Client) (r : Ref)
    (hr : r < h.cells.length) :
    (_get_final_attributesH h dref attributes client).1.get r = h.get r
    ∧ h.cells.length ≤ (_get_final_attributesH h dref attributes client).1.cells.length := by
  have hne : h.cells.length ≠ r := Nat.ne_of_gt hr
  have hsnd : (h.alloc (h.get dref)).2 = h.cells.length := rfl
  have halloc : (h.alloc (h.get dref)).1.get r = h.get r :=
    Heap.get_alloc_lt h _ r hr
  have hlen : (h.alloc (h.get dref)).1.cells.length = h.cells.length + 1 :=
    Heap.length_alloc h _
  unfold _get_final_attributesH
  cases client <;> cases attributes <;>
    simp only [hsnd] <;>
    constructor <;>
    first
      | ((try split) <;> simp [Heap.get_set_ne _ _ _ _ hne, halloc])
      | ((try split) <;> simp only [Heap.length_set, hlen] <;> omega)

theorem Heap.get_alloc_self (h : Heap) (d : DictVal) :
    (h.alloc d).1.get (h.alloc d).2 = d := by
  simp [Heap.alloc, Heap.get, List.getD_append_right]

theorem Heap.get_set_self (h : Heap) (r : Ref) (d : DictVal)
    (hr : r < h.cells.length) : (h.set r d).get r = d := by
  simp [Heap.get, Heap.set, List.getD_eq_getElem?_getD, List.getElem?_set_self, hr]

/-- The heap-passing merge returns the same final attribute dict as the
spec-level merge of the defaults cell, the client-derived attributes and the
caller's cell. -/
theorem _get_final_attributesH_coherent (h : Heap) (dref aref : Ref)
    (client : Option Client) (ha : aref < h.cells.length) :
    (_get_final_attributesH h dref (some aref) client).2
      = mergeFinal (h.get dref) (clientPart client) (h.get aref) := by
  have hcoll : (h.alloc (h.get dref)).2 = h.cells.length := rfl
  have hlen1 : (h.alloc (h.get dref)).1.cells.length = h.cells.length + 1 :=
    Heap.length_alloc h _
  have hlt1 : h.cells.length < (h.alloc (h.get dref)).1.cells.length := by omega
  have hg1 : (h.alloc (h.get dref)).1.get h.cells.length = h.get dref :=
    Heap.get_alloc_self h _
  have hga : (h.alloc (h.get dref)).1.get aref = h.get aref :=
    Heap.get_alloc_lt h _ aref ha
  have hne : h.cells.length ≠ aref := Nat.ne_of_gt ha
  have hss1 : ∀ d, ((h.alloc (h.get dref)).1.set h.cells.length d).get
      h.cells.length = d :=
    fun d => Heap.get_set_self _ _ _ hlt1
  have hlt2 : ∀ d, h.cells.length
      < ((h.alloc (h.get dref)).1.set h.cells.length d).cells.length := by
    intro d
    rw [Heap.length_set]
    omega
  have hss2 : ∀ d d', (((h.alloc (h.get dref)).1.set h.cells.length d).set
      h.cells.length d').get h.cells.length = d' :=
    fun d d' => Heap.get_set_self _ _ _ (hlt2 d)
  have hsne : ∀ d, ((h.alloc (h.get dref)).1.set h.cells.length d).get aref
      = h.get aref :=
    fun d => (Heap.get_set_ne _ _ _ _ hne).trans hga
  unfold _get_final_attributesH
  cases client with
  | none =>
      by_cases he : h.get aref = [] <;>
        simp [he, hcoll, hg1, hga, hss1, hsne, mergeFinal, clientPart,
              dictUpdate]
  | some c =>
      by_cases he : h.get aref = [] <;>
        simp [he, hcoll, hg1, hga, hss1, hss2, hsne, mergeFinal, clientPart,
              dictUpdate]

/-- Frame property of the heap-passing `create_span`: pre-existing dict cells
are untouched and the heap only grows. -/
theorem create_spanH_frame {α : Type} (hasOpentelemetry : Bool)
    (flag : EnvValue) (h : Heap) (dref : Ref) (name : String)
    (attributes : Option Ref) (client : Option Client) (kwargs : DictVal)
    (body : Option Unit → Outcome α) (r : Ref) (hr : r < h.cells.length) :
    (create_spanH hasOpentelemetry flag h dref name attributes client kwargs body).1.get r
      = h.get r
    ∧ h.cells.length
      ≤ (create_spanH hasOpentelemetry flag h dref name attributes client kwargs body).1.cells.length := by
  unfold create_spanH
  split
  · exact ⟨rfl, Nat.le_refl _⟩
  · exact _get_final_attributesH_frame h dref attributes client r hr

/-- Recognises a span-opening event. -/
def isSpanOpen : Event → Bool
  | Event.spanOpen _ _ _ => true
  | _ => false

/-- Recognises a span-closing event. -/
def isSpanClose : Event → Bool
  | Event.spanClose => true
  | _ => false

theorem dictUpdate_nil (d : DictVal) : dictUpdate d [] = d := rfl

/-- C1: when tracing is disabled (flag truthy) or the OpenTelemetry dependency
is unavailable, `create_span` yields a null handle (`None`), creates no span
and performs no span work (its only events are the two debug prints and the
single body execution), and the wrapped body runs exactly once with its
original outcome (return value or exception) unchanged. -/
theorem create_span_disabled_inert {α : Type} (hasOpentelemetry : Bool)
    (flag : EnvValue) (version name : String) (attributes : Option DictVal)
    (client : Option Client) (kwargs : DictVal)
    (body : Option Unit → Outcome α)
    (hdis : (!hasOpentelemetry || pyTruthy flag) = true) :
    (create_span hasOpentelemetry flag version name attributes client kwargs body).yielded
      = none
    ∧ (create_span hasOpentelemetry flag version name attributes client kwargs body).outcome
      = body none
    ∧ (create_span hasOpentelemetry flag version name attributes client kwargs body).span
      = none
    ∧ (create_span hasOpentelemetry flag version name attributes client kwargs body).events
      = [Event.debugPrint, Event.debugPrint, Event.bodyRun] := by
  simp [create_span, hdis]

theorem create_span_disabled_inert_witness :
    ((!true || pyTruthy (EnvValue.pyStr "1")) = true)
    ∧ ((create_span true (EnvValue.pyStr "1") "2.18.0" "storage.buckets.get" none
          none [] (fun _ : Option Unit => Outcome.ok (7 : Nat))).yielded = none
       ∧ (create_span true (EnvValue.pyStr "1") "2.18.0" "storage.buckets.get" none
            none [] (fun _ : Option Unit => Outcome.ok (7 : Nat))).outcome
          = (fun _ : Option Unit => Outcome.ok (7 : Nat)) none
       ∧ (create_span true (EnvValue.pyStr "1") "2.18.0" "storage.buckets.get" none
            none [] (fun _ : Option Unit => Outcome.ok (7 : Nat))).span = none
       ∧ (create_span true (EnvValue.pyStr "1") "2.18.0" "storage.buckets.get" none
            none [] (fun _ : Option Unit => Outcome.ok (7 : Nat))).events
          = [Event.debugPrint, Event.debugPrint, Event.bodyRun]) :=
  ⟨by decide,
   create_span_disabled_inert true (EnvValue.pyStr "1") "2.18.0"
     "storage.buckets.get" none none [] (fun _ : Option Unit => Outcome.ok (7 : Nat))
     (by decide)⟩

/-- C2: for all defaults `A`, client-derived attributes `B` and caller
attributes `C`, the final attribute dict equals `A` overlaid by `B` overlaid
by `C` with every absent-valued (`None`) key removed; in particular defaults
`{a:1, b:2}`, client `{b:3}`, caller `{c:None}` yield `{a:1, b:3}`. -/
theorem final_attributes_merge :
    (∀ (version : String) (attributes : Option DictVal) (client : Option Client),
        _get_final_attributes version attributes client
          = mergeFinal (_default_attributes version) (clientPart client)
              (attributes.getD []))
    ∧ mergeFinal [("a", PyVal.int 1), ("b", PyVal.int 2)] [("b", PyVal.int 3)]
        [("c", PyVal.none)]
      = [("a", PyVal.int 1), ("b", PyVal.int 3)] := by
  constructor
  · intro version attributes client
    cases attributes with
    | none => cases client <;> rfl
    | some a => cases a <;> cases client <;> rfl
  · decide

theorem final_attributes_merge_witness :
    _get_final_attributes "2.18.0" (some [("gcs.bucket", PyVal.str "b1")]) none
      = mergeFinal (_default_attributes "2.18.0") (clientPart none)
          ((some [("gcs.bucket", PyVal.str "b1")]).getD [])
    ∧ mergeFinal [("a", PyVal.int 1), ("b", PyVal.int 2)] [("b", PyVal.int 3)]
        [("c", PyVal.none)]
      = [("a", PyVal.int 1), ("b", PyVal.int 3)] :=
  ⟨final_attributes_merge.1 "2.18.0" (some [("gcs.bucket", PyVal.str "b1")]) none,
   final_attributes_merge.2⟩

/-- C8: the disable flag is the raw value of the environment variable with
Python truthiness, not boolean parsing — truthy exactly when the variable is
set to a non-empty string, so `"false"` and `"0"` disable tracing while an
unset variable or the empty string leave it enabled. -/
theorem disable_flag_python_truthiness :
    (∀ env : Option String,
        pyTruthy (disable_otel_traces env) = true ↔ ∃ s, env = some s ∧ s ≠ "")
    ∧ pyTruthy (disable_otel_traces (some "false")) = true
    ∧ pyTruthy (disable_otel_traces (some "0")) = true
    ∧ pyTruthy (disable_otel_traces none) = false
    ∧ pyTruthy (disable_otel_traces (some "")) = false := by
  refine ⟨?_, by decide, by decide, by decide, by decide⟩
  intro env
  cases env with
  | none => simp [disable_otel_traces, pyTruthy]
  | some s =>
      simp only [disable_otel_traces, pyTruthy]
      constructor
      · intro hs
        refine ⟨s, rfl, fun he => ?_⟩
        subst he
        exact absurd hs (by decide)
      · rintro ⟨t, ht, hne⟩
        obtain rfl : s = t := by injection ht
        cases hs : s.isEmpty with
        | false => rfl
        | true => exact absurd ((String.isEmpty_iff s).mp hs) hne

/-- C3: when tracing is enabled and the wrapped body raises a
`GoogleAPICallError`, the span is closed with error status and the exception
recorded on it, and the very same exception object (same tag) is re-raised to
the caller. -/
theorem api_error_marks_span_and_reraises {α : Type} (flag : EnvValue)
    (version name : String) (attributes : Option DictVal)
    (client : Option Client) (kwargs : DictVal)
    (body : Option Unit → Outcome α) (tag : Nat)
    (hflag : pyTruthy flag = false)
    (hbody : body (some ()) = Outcome.raised (Exc.googleAPICallError tag)) :
    (create_span true flag version name attributes client kwargs body).outcome
      = Outcome.raised (Exc.googleAPICallError tag)
    ∧ (create_span true flag version name attributes client kwargs body).span
      = some { name := name
               kind := SpanKind.client
               attributes := _get_final_attributes version attributes client
               status := SpanStatus.error
               recorded := [Exc.googleAPICallError tag] } := by
  simp [create_span, hflag, spanScope, hbody, isGoogleAPICallError]

theorem api_error_marks_span_and_reraises_witness :
    (pyTruthy EnvValue.pyFalse = false
     ∧ (fun _ : Option Unit =>
          (Outcome.raised (Exc.googleAPICallError 42) : Outcome Nat)) (some ())
        = Outcome.raised (Exc.googleAPICallError 42))
    ∧ ((create_span true EnvValue.pyFalse "2.18.0" "storage.buckets.get" none none []
          (fun _ : Option Unit =>
            (Outcome.raised (Exc.googleAPICallError 42) : Outcome Nat))).outcome
        = Outcome.raised (Exc.googleAPICallError 42)
       ∧ (create_span true EnvValue.pyFalse "2.18.0" "storage.buckets.get" none none []
            (fun _ : Option Unit =>
              (Outcome.raised (Exc.googleAPICallError 42) : Outcome Nat))).span
          = some { name := "storage.buckets.get"
                   kind := SpanKind.client
                   attributes := _get_final_attributes "2.18.0" none none
                   status := SpanStatus.error
                   recorded := [Exc.googleAPICallError 42] }) :=
  ⟨⟨by decide, rfl⟩,
   api_error_marks_span_and_reraises EnvValue.pyFalse "2.18.0" "storage.buckets.get"
     none none []
     (fun _ : Option Unit => (Outcome.raised (Exc.googleAPICallError 42) : Outcome Nat))
     42 (by decide) rfl⟩

/-- C4: when tracing is enabled and the wrapped body raises any error kind
other than `GoogleAPICallError`, the span keeps its default (unset) status,
records no exception, and the same error propagates unchanged to the
caller. -/
theorem other_error_leaves_status_unset {α : Type} (flag : EnvValue)
    (version name : String) (attributes : Option DictVal)
    (client : Option Client) (kwargs : DictVal)
    (body : Option Unit → Outcome α) (tag : Nat)
    (hflag : pyTruthy flag = false)
    (hbody : body (some ()) = Outcome.raised (Exc.otherError tag)) :
    (create_span true flag version name attributes client kwargs body).outcome
      = Outcome.raised (Exc.otherError tag)
    ∧ (create_span true flag version name attributes client kwargs body).span
      = some { name := name
               kind := SpanKind.client
               attributes := _get_final_attributes version attributes client
               status := SpanStatus.unset
               recorded := [] } := by
  simp [create_span, hflag, spanScope, hbody, isGoogleAPICallError]

theorem other_error_leaves_status_unset_witness :
    (pyTruthy EnvValue.pyFalse = false
     ∧ (fun _ : Option Unit =>
          (Outcome.raised (Exc.otherError 5) : Outcome Nat)) (some ())
        = Outcome.raised (Exc.otherError 5))
    ∧ ((create_span true EnvValue.pyFalse "2.18.0" "storage.blobs.download" none none []
          (fun _ : Option Unit =>
            (Outcome.raised (Exc.otherError 5) : Outcome Nat))).outcome
        = Outcome.raised (Exc.otherError 5)
       ∧ (create_span true EnvValue.pyFalse "2.18.0" "storage.blobs.download" none none []
            (fun _ : Option Unit =>
              (Outcome.raised (Exc.otherError 5) : Outcome Nat))).span
          = some { name := "storage.blobs.download"
                   kind := SpanKind.client
                   attributes := _get_final_attributes "2.18.0" none none
                   status := SpanStatus.unset
                   recorded := [] }) :=
  ⟨⟨by decide, rfl⟩,
   other_error_leaves_status_unset EnvValue.pyFalse "2.18.0" "storage.blobs.download"
     none none []
     (fun _ : Option Unit => (Outcome.raised (Exc.otherError 5) : Outcome Nat))
     5 (by decide) rfl⟩

/-- C5: when tracing is enabled, every invocation of `create_span` opens
exactly one span scope and closes it exactly once, on the success path and on
every failure path of the wrapped body, including unrecognized error kinds. -/
theorem span_closes_exactly_once {α : Type} (hasOpentelemetry : Bool)
    (flag : EnvValue) (version name : String) (attributes : Option DictVal)
    (client : Option Client) (kwargs : DictVal)
    (body : Option Unit → Outcome α)
    (hen : (!hasOpentelemetry || pyTruthy flag) = false) :
    (create_span hasOpentelemetry flag version name attributes client kwargs
        body).events.countP isSpanOpen = 1
    ∧ (create_span hasOpentelemetry flag version name attributes client kwargs
        body).events.countP isSpanClose = 1 := by
  simp only [create_span, hen, Bool.false_eq_true, if_false]
  cases hb : body (some ()) with
  | ok v =>
      simp [spanScope, hb, isSpanOpen, isSpanClose]
  | raised e =>
      cases e <;>
        simp [spanScope, hb, isGoogleAPICallError, isSpanOpen, isSpanClose]

theorem span_closes_exactly_once_witness :
    ((!true || pyTruthy EnvValue.pyFalse) = false)
    ∧ ((create_span true EnvValue.pyFalse "2.18.0" "storage.buckets.list" none none []
          (fun _ : Option Unit =>
            (Outcome.raised (Exc.otherError 3) : Outcome Nat))).events.countP
          isSpanOpen = 1
       ∧ (create_span true EnvValue.pyFalse "2.18.0" "storage.buckets.list" none none []
            (fun _ : Option Unit =>
              (Outcome.raised (Exc.otherError 3) : Outcome Nat))).events.countP
            isSpanClose = 1) :=
  ⟨by decide,
   span_closes_exactly_once true EnvValue.pyFalse "2.18.0" "storage.buckets.list"
     none none []
     (fun _ : Option Unit => (Outcome.raised (Exc.otherError 3) : Outcome Nat))
     (by decide)⟩

/-- C6: the client-derived attributes are exactly `url` (the client's base
endpoint) and `user_agent.original` (its user-agent string), plus a `project`
key equal to the client's project identifier exactly when that identifier is
set; and when the client has no project, the final attributes of a call
supplying only the client contain no `project` key. -/
theorem client_attributes_exact :
    ∀ c : Client,
      dictGet (_set_client_attributes c) "url" = some (PyVal.str c.api_base_url)
      ∧ dictGet (_set_client_attributes c) "user_agent.original"
          = some (PyVal.str c.user_agent)
      ∧ dictGet (_set_client_attributes c) "project" = Option.map PyVal.str c.project
      ∧ (∀ kv ∈ _set_client_attributes c,
            kv.1 = "url" ∨ kv.1 = "user_agent.original"
            ∨ (kv.1 = "project" ∧ c.project ≠ none))
      ∧ (∀ version : String,
            hasKey (_get_final_attributes version none (some c)) "project"
              = c.project.isSome) := by
  rintro ⟨u, ua, pr⟩
  cases pr with
  | none =>
      refine ⟨rfl, rfl, rfl, ?_, ?_⟩
      · intro kv hkv
        simp [_set_client_attributes] at hkv
        rcases hkv with h | h <;> simp [h]
      · intro version
        simp [_get_final_attributes, _set_client_attributes, dictUpdate,
              dictSet, filterNone, hasKey, _default_attributes]
  | some p =>
      refine ⟨rfl, rfl, rfl, ?_, ?_⟩
      · intro kv hkv
        simp [_set_client_attributes, dictSet] at hkv
        rcases hkv with h | h | h <;> simp [h]
      · intro version
        simp [_get_final_attributes, _set_client_attributes, dictUpdate,
              dictSet, filterNone, hasKey, _default_attributes]

/-- C7: the process-wide default-attributes dict is never modified by
`create_span` — after one call, and after a second call on the resulting
heap with the same inputs, the cell holding the defaults still holds exactly
its startup contents, so both calls observe the same defaults. -/
theorem default_attributes_immutable {α : Type} (hasOpentelemetry : Bool)
    (flag : EnvValue) (h : Heap) (dref : Ref) (name : String)
    (attributes : Option Ref) (client : Option Client) (kwargs : DictVal)
    (body body' : Option Unit → Outcome α) (hd : dref < h.cells.length) :
    ((create_spanH hasOpentelemetry flag h dref name attributes client kwargs
        body).1.get dref = h.get dref)
    ∧ ((create_spanH hasOpentelemetry flag
          (create_spanH hasOpentelemetry flag h dref name attributes client
            kwargs body).1
          dref name attributes client kwargs body').1.get dref = h.get dref) := by
  have h1 := create_spanH_frame hasOpentelemetry flag h dref name attributes
    client kwargs body dref hd
  have hd2 : dref < (create_spanH hasOpentelemetry flag h dref name attributes
      client kwargs body).1.cells.length :=
    Nat.lt_of_lt_of_le hd h1.2
  have h2 := create_spanH_frame hasOpentelemetry flag
    (create_spanH hasOpentelemetry flag h dref name attributes client kwargs
      body).1 dref name attributes client kwargs body' dref hd2
  exact ⟨h1.1, h2.1.trans h1.1⟩

theorem default_attributes_immutable_witness :
    (0 < (Heap.mk [[("rpc.service", PyVal.str "CloudStorage")]]).cells.length)
    ∧ (((create_spanH true EnvValue.pyFalse
          (Heap.mk [[("rpc.service", PyVal.str "CloudStorage")]]) 0
          "storage.buckets.get" none none []
          (fun _ : Option Unit => (Outcome.ok 0 : Outcome Nat))).1.get 0
        = (Heap.mk [[("rpc.service", PyVal.str "CloudStorage")]]).get 0)
       ∧ ((create_spanH true EnvValue.pyFalse
            (create_spanH true EnvValue.pyFalse
              (Heap.mk [[("rpc.service", PyVal.str "CloudStorage")]]) 0
              "storage.buckets.get" none none []
              (fun _ : Option Unit => (Outcome.ok 0 : Outcome Nat))).1 0
            "storage.buckets.get" none none []
            (fun _ : Option Unit => (Outcome.ok 0 : Outcome Nat))).1.get 0
          = (Heap.mk [[("rpc.service", PyVal.str "CloudStorage")]]).get 0)) :=
  ⟨by decide,
   default_attributes_immutable true EnvValue.pyFalse
     (Heap.mk [[("rpc.service", PyVal.str "CloudStorage")]]) 0
     "storage.buckets.get" none none []
     (fun _ : Option Unit => (Outcome.ok 0 : Outcome Nat))
     (fun _ : Option Unit => (Outcome.ok 0 : Outcome Nat))
     (by decide)⟩

/-- C10: the caller-supplied attributes dict is left unmodified by both
`_get_final_attributes` and `create_span` — the merge copies the defaults and
overlays into the copy, so the caller's cell holds exactly the same pairs
afterwards. -/
theorem caller_attributes_unmodified {α : Type} (hasOpentelemetry : Bool)
    (flag : EnvValue) (h : Heap) (dref aref : Ref) (name : String)
    (client : Option Client) (kwargs : DictVal)
    (body : Option Unit → Outcome α) (ha : aref < h.cells.length) :
    ((_get_final_attributesH h dref (some aref) client).1.get aref = h.get aref)
    ∧ ((create_spanH hasOpentelemetry flag h dref name (some aref) client kwargs
          body).1.get aref = h.get aref) :=
  ⟨(_get_final_attributesH_frame h dref (some aref) client aref ha).1,
   (create_spanH_frame hasOpentelemetry flag h dref name (some aref) client
      kwargs body aref ha).1⟩

theorem caller_attributes_unmodified_witness :
    (1 < (Heap.mk [[("rpc.service", PyVal.str "CloudStorage")],
                   [("gcs.bucket", PyVal.str "b1")]]).cells.length)
    ∧ (((_get_final_attributesH
          (Heap.mk [[("rpc.service", PyVal.str "CloudStorage")],
                    [("gcs.bucket", PyVal.str "b1")]]) 0 (some 1) none).1.get 1
        = (Heap.mk [[("rpc.service", PyVal.str "CloudStorage")],
                    [("gcs.bucket", PyVal.str "b1")]]).get 1)
       ∧ ((create_spanH true EnvValue.pyFalse
            (Heap.mk [[("rpc.service", PyVal.str "CloudStorage")],
                      [("gcs.bucket", PyVal.str "b1")]]) 0
            "storage.buckets.get" (some 1) none []
            (fun _ : Option Unit => (Outcome.ok 0 : Outcome Nat))).1.get 1
          = (Heap.mk [[("rpc.service", PyVal.str "CloudStorage")],
                      [("gcs.bucket", PyVal.str "b1")]]).get 1)) :=
  ⟨by decide,
   caller_attributes_unmodified true EnvValue.pyFalse
     (Heap.mk [[("rpc.service", PyVal.str "CloudStorage")],
               [("gcs.bucket", PyVal.str "b1")]]) 0 1
     "storage.buckets.get" none []
     (fun _ : Option Unit => (Outcome.ok 0 : Outcome Nat))
     (by decide)⟩

theorem disable_flag_python_truthiness_witness :
    pyTruthy (disable_otel_traces (some "false")) = true
    ∧ pyTruthy (disable_otel_traces none) = false :=
  ⟨disable_flag_python_truthiness.2.1,
   disable_flag_python_truthiness.2.2.2.1⟩

theorem client_attributes_exact_witness :
    dictGet (_set_client_attributes
        ⟨"https://storage.googleapis.com", "gcloud-python/2.18.0", some "p1"⟩)
      "url" = some (PyVal.str "https://storage.googleapis.com")
    ∧ dictGet (_set_client_attributes
        ⟨"https://storage.googleapis.com", "gcloud-python/2.18.0", some "p1"⟩)
      "project" = some (PyVal.str "p1")
    ∧ hasKey (_get_final_attributes "2.18.0" none
        (some ⟨"https://storage.googleapis.com", "gcloud-python/2.18.0", none⟩))
      "project" = false :=
  ⟨(client_attributes_exact
      ⟨"https://storage.googleapis.com", "gcloud-python/2.18.0", some "p1"⟩).1,
   (client_attributes_exact
      ⟨"https://storage.googleapis.com", "gcloud-python/2.18.0", some "p1"⟩).2.2.1,
   (client_attributes_exact
      ⟨"https://storage.googleapis.com", "gcloud-python/2.18.0", none⟩).2.2.2.2
     "2.18.0"⟩

/-- C9: extra keyword arguments are accepted and silently ignored — the
result of `create_span` is identical for any two `kwargs` dicts. -/
theorem kwargs_ignored {α : Type} (hasOpentelemetry : Bool) (flag : EnvValue)
    (version name : String) (attributes : Option DictVal)
    (client : Option Client) (kwargs kwargs' : DictVal)
    (body : Option Unit → Outcome α) :
    create_span hasOpentelemetry flag version name attributes client kwargs body
      = create_span hasOpentelemetry flag version name attributes client kwargs' body :=
  rfl
